import Mathlib

/-!
Shallow embedding of `src/server.js` (SAR Lookup Orchestrator).

The single Express handler `POST /api/get-sar-image` is modelled as a pure
function of the request body, the configuration (environment credentials) and
one oracle per outbound HTTP call (catalog, vision colors, vision tags, LLM),
each oracle being the outcome that call would produce if made.  The handler
returns the HTTP response together with the list of outbound calls it issued.
JavaScript `undefined`/absent fields are modelled with `Option`; JavaScript
truthiness of string-or-undefined values is modelled explicitly.  Machine
numbers that the code only compares or renders are modelled as `Int`/`Rat`.
-/

namespace SarServer

/-- Model of a JSON/JavaScript value as far as the handler inspects one:
the request's `latitude`/`longitude` are used without any type check, so the
claims only need a type with several distinct shapes.  Numbers are modelled
as rationals. -/
inductive JSValue where
  | null
  | bool (b : Bool)
  | num (q : Rat)
  | str (s : String)
deriving DecidableEq

/-- JavaScript truthiness of an environment variable (`process.env.X` is a
string or `undefined`; `!x` is true exactly for `undefined` and `""`). -/
def jsTruthyStr : Option String → Bool
  | none => false
  | some s => !(s == "")

/-- JavaScript `a || b` on string-or-undefined values: `a` wins unless it is
`undefined` or the empty string. -/
def jsOr (a b : Option String) : Option String :=
  match a with
  | some s => if s = "" then b else some s
  | none => b

/-- JavaScript `a || d` where `d` is a (non-empty) string default. -/
def jsOrD (a : Option String) (d : String) : String :=
  match a with
  | some s => if s = "" then d else s
  | none => d

/-- One catalog feature's `properties` object (`server.js` lines 50-108).
`browse` is `Option` because the eligibility filter explicitly guards its
absence.  `startTime` is modelled by its temporal value in epoch
milliseconds, i.e. the number `new Date(properties.startTime).getTime()`
that the sort comparator on line 52 subtracts; the catalog's ISO-8601
strings map monotonically and injectively to this value. -/
structure FeatureProperties where
  startTime : Int
  sceneName : String
  platform : String
  flightDirection : String
  polarization : String
  beamModeType : String
  orbit : Int
  browse : Option (List String)
deriving DecidableEq, Inhabited

/-- One element of the catalog's `features` array; the handler only reads
its `properties` object, which may be absent (guarded on line 51). -/
structure Feature where
  properties : Option FeatureProperties
deriving DecidableEq, Inhabited

/-- Line 51: `f.properties && f.properties.browse && f.properties.browse.length > 0`. -/
def eligibleB (f : Feature) : Bool :=
  match f.properties with
  | none => false
  | some p =>
    match p.browse with
    | none => false
    | some b => decide (b.length > 0)

/-- The `properties` object of a feature that passed the eligibility filter;
the filter guarantees presence, `getD` supplies an arbitrary record on the
branch the code cannot reach. -/
def propsOf (f : Feature) : FeatureProperties :=
  f.properties.getD default

/-- The sort key of line 52 (`new Date(_.properties.startTime)` as a number). -/
def startTimeOf (f : Feature) : Int :=
  (propsOf f).startTime

/-- One insertion step of a stable descending sort on `startTimeOf`:
the inserted element goes after every strictly later element and after no
earlier one, and before elements with an equal key (it originates earlier
in the input list). -/
def insertDesc (x : Feature) : List Feature → List Feature
  | [] => [x]
  | y :: ys => if startTimeOf y ≤ startTimeOf x then x :: y :: ys else y :: insertDesc x ys

/-- Stable descending sort by `startTimeOf`: model of line 52's
`.sort((a, b) => new Date(b.properties.startTime) - new Date(a.properties.startTime))`
(ECMAScript `Array.prototype.sort` is stable, and any stable sort is
determined by the comparator, so insertion sort is a faithful model). -/
def sortDesc : List Feature → List Feature
  | [] => []
  | x :: xs => insertDesc x (sortDesc xs)

/-- Lines 50-52: `features.filter(...).sort(...)`. -/
def sortedFeatures (features : List Feature) : List Feature :=
  sortDesc (features.filter eligibleB)

/-- One element of the Imagga colors payload's `image_colors` list
(name fields may be absent, line 113's `||` chain guards them). -/
structure ColorSample where
  color_name : Option String
  closest_palette_color : Option String
  html_code : Option String
  percent : Option Rat
deriving DecidableEq

/-- The nested `tag` object of an Imagga tag (`t.tag.en`, line 92). -/
structure TagLabel where
  en : String
deriving DecidableEq

/-- One element of the Imagga tags payload's `result.tags` list. -/
structure ImaggaTag where
  confidence : Rat
  tag : TagLabel
deriving DecidableEq

/-- The `message` object of an OpenRouter choice; `content` may be absent
(optional chaining on line 163). -/
structure AIMessage where
  content : Option String
deriving DecidableEq

/-- One element of the OpenRouter response's `choices` array. -/
structure AIChoice where
  message : Option AIMessage
  text : Option String
deriving DecidableEq

/-- The OpenRouter response body; `choices` may be absent (guarded by the
`&&` chain on line 163). -/
structure AIData where
  choices : Option (List AIChoice)
deriving DecidableEq

/-- The catalog response body (`asfResponse.data`); its `features` field may
be absent (`!features` on line 46). -/
structure AsfData where
  features : Option (List Feature)
deriving DecidableEq

/-- The environment configuration read at process start (lines 10-12); each
variable is a string or `undefined`. -/
structure Config where
  imaggaKey : Option String
  imaggaSecret : Option String
  openRouterKey : Option String
deriving DecidableEq

/-- The request body as destructured on line 25; a field is `none` when the
JSON body does not define it (`=== undefined` on line 28). -/
structure RequestBody where
  latitude : Option JSValue
  longitude : Option JSValue
deriving DecidableEq

/-- The `metadataForAI` object built on lines 100-109.  `captureDate` holds
the feature's start-time value (see `FeatureProperties.startTime`). -/
structure Metadata where
  sceneName : String
  platform : String
  captureDate : Int
  flightDirection : String
  polarization : String
  beamMode : String
  orbit : Int
  latitude : JSValue
  longitude : JSValue
deriving DecidableEq

/-- The success payload returned on lines 171-178. -/
structure SuccessBody where
  imageUrl : String
  explanation : String
  sceneName : String
  imageTags : List String
  imageColors : List ColorSample
  metadata : Metadata
deriving DecidableEq

/-- A JSON response body: either an `{error: ...}` object or the success payload. -/
inductive RespBody where
  | err (error : String)
  | ok (payload : SuccessBody)
deriving DecidableEq

/-- An HTTP response: status code plus JSON body. -/
structure Response where
  status : Nat
  body : RespBody
deriving DecidableEq

/-- One outbound HTTP call, with the request data that the handler feeds it. -/
inductive Call where
  | asf (latitude longitude : JSValue)
  | colors (imageUrl : String)
  | tags (imageUrl : String)
  | openRouter (prompt : String)
deriving DecidableEq

/-- Model of JavaScript `Number.prototype.toFixed(1)` on line 113: round to
one decimal and render with exactly one digit after the point. -/
def toFixed1 (q : Rat) : String :=
  let n : Int := round (q * 10)
  let sign := if n < 0 then "-" else ""
  let m := n.natAbs
  sign ++ toString (m / 10) ++ "." ++ toString (m % 10)

/-- JSON string escaping for one character (model of `JSON.stringify`'s
escaping; only the characters that can occur here are distinguished). -/
def escapeJsonChar (c : Char) : String :=
  if c = '"' then "\\\""
  else if c = '\\' then "\\\\"
  else if c = '\n' then "\\n"
  else String.singleton c

/-- JSON string escaping. -/
def escapeJson (s : String) : String :=
  String.join (s.data.map escapeJsonChar)

/-- A JSON-quoted string. -/
def jsonQuote (s : String) : String :=
  "\"" ++ escapeJson s ++ "\""

/-- JSON rendering of a request-supplied value (the coordinates inside
`metadataForAI`); number rendering is a simple model of JS number printing. -/
def renderJSValue : JSValue → String
  | JSValue.null => "null"
  | JSValue.bool b => if b then "true" else "false"
  | JSValue.num q => toString q
  | JSValue.str s => jsonQuote s

/-- Model of `JSON.stringify(metadataForAI, null, 2)` on line 142: the
two-space pretty-printed JSON object, field order as constructed on
lines 100-109.  (`captureDate` is rendered from its modelled numeric
value, see `FeatureProperties.startTime`.) -/
def renderMetadata (m : Metadata) : String :=
  "\x7b\n  \"sceneName\": " ++ jsonQuote m.sceneName
    ++ ",\n  \"platform\": " ++ jsonQuote m.platform
    ++ ",\n  \"captureDate\": " ++ toString m.captureDate
    ++ ",\n  \"flightDirection\": " ++ jsonQuote m.flightDirection
    ++ ",\n  \"polarization\": " ++ jsonQuote m.polarization
    ++ ",\n  \"beamMode\": " ++ jsonQuote m.beamMode
    ++ ",\n  \"orbit\": " ++ toString m.orbit
    ++ ",\n  \"coordinates\": \x7b\n    \"latitude\": " ++ renderJSValue m.latitude
    ++ ",\n    \"longitude\": " ++ renderJSValue m.longitude
    ++ "\n  \x7d\n\x7d"

/-- Line 113: `${c.color_name || c.closest_palette_color || c.html_code || 'unknown'}: ${(c.percent || 0).toFixed(1)}%`. -/
def colorEntryText (c : ColorSample) : String :=
  jsOrD (jsOr (jsOr c.color_name c.closest_palette_color) c.html_code) "unknown"
    ++ ": " ++ toFixed1 (c.percent.getD 0) ++ "%"

/-- Lines 112-114: the `colorText` value (`imageColors.length ? ... : 'No color data available'`). -/
def colorTextOf (imageColors : List ColorSample) : String :=
  if imageColors.length = 0 then "No color data available"
  else String.intercalate ", " (imageColors.map colorEntryText)

/-- Line 123: `${imageTags.length ? imageTags.join(', ') : 'None'}`. -/
def tagTextOf (imageTags : List String) : String :=
  if imageTags.length = 0 then "None"
  else String.intercalate ", " imageTags

/-- The fixed template text of line 117 up to the `${colorText}` splice. -/
def promptIntro : String :=
  "You are a NASA SAR (Synthetic Aperture Radar) interpretation specialist 🛰️.\nA vision API has returned detected colors and approximate percentages for a Sentinel-1 preview image.\n\nDetected color percentages:\n"

/-- The fixed template text between the `${colorText}` splice and the tags splice. -/
def promptMid : String :=
  "\n\nAlso detected visual tags: "

/-- The fixed template text between the tags splice and the metadata splice
(the interpretation chart and the five instruction bullets). -/
def promptChart : String :=
  ".\n\nSAR Color Interpretation Chart:\n- Bright White / Light Gray => strong backscatter (urban structures, metal, ships)\n- Medium Gray => rocky terrain or dry soil\n- Black / Dark Blue => calm water or radar shadow\n- Green => vegetation or forest\n- Yellow / Orange => mixed terrain or transitional vegetation\n- Red / Magenta => man-made structures or urban materials\n- Cyan / Blue-Green => wetlands or moist areas\n\nUsing these color percentages and the tags, do the following:\n1) For each detected color, give a short interpretation (one line) about what that color likely represents in SAR terms.\n2) Provide a 4-6 sentence summary describing the most likely landscape in plain, simple language.\n3) Mention the capture date/time, flightDirection, and coordinates (from metadata) explicitly.\n4) Note any uncertainties or edge-cases (for example, if color mapping is ambiguous).\n5) Use 0-2 relevant emojis, keep output concise.\n\nMetadata:\n"

/-- The template literal of lines 116-143 before `.trim()`: it starts and
ends with a newline and splices `colorText`, the tag text and the
pretty-printed metadata into fixed text. -/
def rawPrompt (imageColors : List ColorSample) (imageTags : List String) (m : Metadata) : String :=
  "\n" ++ promptIntro ++ colorTextOf imageColors ++ promptMid ++ tagTextOf imageTags
    ++ promptChart ++ renderMetadata m ++ "\n"

/-- Whitespace class of JavaScript `String.prototype.trim`, modelled by
`Char.isWhitespace` (the characters occurring here are `\n` and spaces). -/
def wsC (c : Char) : Bool := c.isWhitespace

/-- Drop leading whitespace. -/
def ltrimChars (l : List Char) : List Char := l.dropWhile wsC

/-- Drop trailing whitespace. -/
def rtrimChars (l : List Char) : List Char := (l.reverse.dropWhile wsC).reverse

/-- Drop leading and trailing whitespace. -/
def trimChars (l : List Char) : List Char := rtrimChars (ltrimChars l)

/-- Model of JavaScript `String.prototype.trim` (line 143's `.trim()`). -/
def jsTrim (s : String) : String := String.mk (trimChars s.data)

/-- Lines 112-143: the prompt string handed to the LLM call. -/
def buildPrompt (imageColors : List ColorSample) (imageTags : List String) (m : Metadata) : String :=
  jsTrim (rawPrompt imageColors imageTags m)

/-- Lines 65-79: the `imageColors` value.  A failed call is absorbed to `[]`;
on success the `&&`-chain of line 74 collapses any missing nesting level of
`data.result.colors.image_colors` to `[]` as well (`none` models a missing
level). -/
def imageColorsOf : Except Unit (Option (List ColorSample)) → List ColorSample
  | Except.error _ => []
  | Except.ok o => o.getD []

/-- Lines 81-98: the `imageTags` value.  A failed call is absorbed to `[]`;
on success (line 91-93) a missing `data.result.tags` nesting gives `[]`,
otherwise `tags.filter(t => t.confidence > 15).slice(0,5).map(t => t.tag.en)`. -/
def imageTagsOf : Except Unit (Option (List ImaggaTag)) → List String
  | Except.error _ => []
  | Except.ok none => []
  | Except.ok (some ts) =>
    ((ts.filter (fun t => decide (t.confidence > 15))).take 5).map (fun t => t.tag.en)

/-- Line 163: `aiResponse.data && aiResponse.data.choices && aiResponse.data.choices[0] && (aiResponse.data.choices[0].message?.content || aiResponse.data.choices[0].text) || ''`.
`none` for the outer argument models a falsy response body. -/
def extractExplanation (d : Option AIData) : String :=
  match d with
  | none => ""
  | some data =>
    match data.choices with
    | none => ""
    | some cs =>
      match cs.head? with
      | none => ""
      | some c => (jsOr (c.message.bind AIMessage.content) c.text).getD ""

/-- Lines 146-168: the `explanation` value (failure absorbed to the fixed
literal, success extracted from the response). -/
def explanationOf : Except Unit (Option AIData) → String
  | Except.error _ => "AI interpretation unavailable due to service error."
  | Except.ok d => extractExplanation d

/-- The first browse URL of a selected feature (`properties.browse[0]`,
line 60); the defaults are unreachable for eligible features. -/
def imageUrlOf (f : Feature) : String :=
  ((propsOf f).browse.getD []).headD ""

/-- Lines 100-109: the `metadataForAI` object for the selected feature. -/
def metadataOf (latitude longitude : JSValue) (latestFeature : Feature) : Metadata :=
  { sceneName := (propsOf latestFeature).sceneName
    platform := (propsOf latestFeature).platform
    captureDate := (propsOf latestFeature).startTime
    flightDirection := (propsOf latestFeature).flightDirection
    polarization := (propsOf latestFeature).polarization
    beamMode := (propsOf latestFeature).beamModeType
    orbit := (propsOf latestFeature).orbit
    latitude := latitude
    longitude := longitude }

/-- The prompt submitted to the LLM on the success path (lines 112-143). -/
def promptOf (latitude longitude : JSValue) (latestFeature : Feature)
    (colorsR : Except Unit (Option (List ColorSample)))
    (tagsR : Except Unit (Option (List ImaggaTag))) : String :=
  buildPrompt (imageColorsOf colorsR) (imageTagsOf tagsR)
    (metadataOf latitude longitude latestFeature)

/-- The success payload of lines 171-178. -/
def successBody (latitude longitude : JSValue) (latestFeature : Feature)
    (colorsR : Except Unit (Option (List ColorSample)))
    (tagsR : Except Unit (Option (List ImaggaTag)))
    (aiR : Except Unit (Option AIData)) : SuccessBody :=
  { imageUrl := imageUrlOf latestFeature
    explanation := explanationOf aiR
    sceneName := (propsOf latestFeature).sceneName
    imageTags := imageTagsOf tagsR
    imageColors := imageColorsOf colorsR
    metadata := metadataOf latitude longitude latestFeature }

/-- The outbound calls issued on the success path, in order (lines 43, 68, 85, 148). -/
def successCalls (latitude longitude : JSValue) (latestFeature : Feature)
    (colorsR : Except Unit (Option (List ColorSample)))
    (tagsR : Except Unit (Option (List ImaggaTag))) : List Call :=
  [Call.asf latitude longitude, Call.colors (imageUrlOf latestFeature),
   Call.tags (imageUrlOf latestFeature),
   Call.openRouter (promptOf latitude longitude latestFeature colorsR tagsR)]

/-- Lines 58-178: the success path of the handler once a latest feature has
been selected — the two Imagga calls, the prompt build, the LLM call and the
final 200 response, together with the outbound calls made (the catalog call
first). -/
def successResult (latitude longitude : JSValue) (latestFeature : Feature)
    (colorsR : Except Unit (Option (List ColorSample)))
    (tagsR : Except Unit (Option (List ImaggaTag)))
    (aiR : Except Unit (Option AIData)) : Response × List Call :=
  ({ status := 200
     body := RespBody.ok (successBody latitude longitude latestFeature colorsR tagsR aiR) },
   successCalls latitude longitude latestFeature colorsR tagsR)

/-- Lines 24-184: the `POST /api/get-sar-image` handler.  `asfR`, `colorsR`,
`tagsR` and `aiR` are the outcomes the four outbound calls would produce if
made; the returned list records the calls actually issued, in order. -/
def handler (cfg : Config) (req : RequestBody) (asfR : Except Unit AsfData)
    (colorsR : Except Unit (Option (List ColorSample)))
    (tagsR : Except Unit (Option (List ImaggaTag)))
    (aiR : Except Unit (Option AIData)) : Response × List Call :=
  match req.latitude, req.longitude with
  | some latitude, some longitude =>
    -- line 32: `if (!IMAGGA_API_KEY || !IMAGGA_API_SECRET)`
    if !jsTruthyStr cfg.imaggaKey || !jsTruthyStr cfg.imaggaSecret then
      ({ status := 500, body := RespBody.err "Server configuration error: Imagga credentials missing." }, [])
    else
      -- line 36: a missing OPEN_ROUTER_API only logs a warning, nothing returns
      match asfR with
      | Except.error _ =>
        -- lines 180-183: the outer catch
        ({ status := 500, body := RespBody.err "Failed to process SAR data." },
         [Call.asf latitude longitude])
      | Except.ok data =>
        match data.features with
        | none =>
          -- line 46: `!features`
          ({ status := 404, body := RespBody.err "No SAR data found for this location." },
           [Call.asf latitude longitude])
        | some features =>
          if features.length = 0 then
            ({ status := 404, body := RespBody.err "No SAR data found for this location." },
             [Call.asf latitude longitude])
          else
            match sortedFeatures features with
            | [] =>
              -- line 54
              ({ status := 404, body := RespBody.err "SAR data found, but no preview images are available." },
               [Call.asf latitude longitude])
            | latestFeature :: _ =>
              successResult latitude longitude latestFeature colorsR tagsR aiR
  | _, _ =>
    -- line 28: `latitude === undefined || longitude === undefined`
    ({ status := 400, body := RespBody.err "Latitude and Longitude are required." }, [])

/-- The `/health` response body (line 20). -/
structure HealthBody where
  status : String
  timestamp : Nat
deriving DecidableEq

/-- Lines 19-21: the `GET /health` handler, as a function of the value
`Date.now()` reads at the moment of the call. -/
def healthHandler (now : Nat) : Nat × HealthBody :=
  (200, { status := "ok", timestamp := now })

/-- A sequence of `/health` calls, given the clock readings `Date.now()`
produces at each successive call. -/
def healthRun (clock : List Nat) : List (Nat × HealthBody) :=
  clock.map healthHandler

/-- The first feature attaining the maximal `startTimeOf` key, earlier
features winning ties.  Used to state the claim-side characterisation of the
selection. -/
def firstMaxBy : List Feature → Option Feature
  | [] => none
  | x :: xs =>
    match firstMaxBy xs with
    | none => some x
    | some y => if startTimeOf x < startTimeOf y then some y else some x

/-- Modelled from the spec's words (selection invariant of §3 / §4.2): among
the features with a non-empty browse list, the one with the latest start
time, ties broken by original catalog order. -/
def selectLatest_spec (features : List Feature) : Option Feature :=
  firstMaxBy (features.filter eligibleB)

/-! Concrete fixtures used by the witnesses. -/

/-- A feature with an early start time and two preview images. -/
def exFeat1 : Feature :=
  ⟨some ⟨100, "scene1", "Sentinel-1A", "ASCENDING", "VV+VH", "IW", 10, some ["url1a", "url1b"]⟩⟩

/-- The eligible feature with the latest start time in `exFs`. -/
def exFeat2 : Feature :=
  ⟨some ⟨300, "scene2", "Sentinel-1B", "DESCENDING", "VV", "IW", 11, some ["url2"]⟩⟩

/-- An eligible feature with a middle start time. -/
def exFeat3 : Feature :=
  ⟨some ⟨200, "scene3", "Sentinel-1A", "ASCENDING", "HH", "EW", 12, some ["url3"]⟩⟩

/-- A feature without a `properties` object. -/
def exFeatNoProps : Feature := ⟨none⟩

/-- A feature whose `properties.browse` field is absent. -/
def exFeatNoBrowse : Feature :=
  ⟨some ⟨400, "scene4", "Sentinel-1A", "ASCENDING", "VV", "IW", 13, none⟩⟩

/-- A feature whose `properties.browse` list is empty. -/
def exFeatEmptyBrowse : Feature :=
  ⟨some ⟨500, "scene5", "Sentinel-1B", "DESCENDING", "VV", "IW", 14, some []⟩⟩

/-- A catalog feature list mixing eligible and ineligible features, with the
latest eligible start time (`exFeat2`) not first. -/
def exFs : List Feature :=
  [exFeat1, exFeatNoProps, exFeat2, exFeatNoBrowse, exFeat3, exFeatEmptyBrowse]

/-- A configuration with all credentials present. -/
def exCfg : Config := ⟨some "key", some "secret", some "router"⟩

/-- A request with both coordinates present. -/
def exReq : RequestBody := ⟨some (JSValue.num 1), some (JSValue.num 2)⟩

/-- A metadata record for the prompt-builder witness. -/
def exMeta : Metadata :=
  metadataOf (JSValue.num 1) (JSValue.num 2) exFeat2

/-- The tag list of spec §8 item 5 plus a boundary tag of confidence 15 and a
seventh surviving tag, to exercise both the strict filter and the cap at 5. -/
def exTags : List ImaggaTag :=
  [⟨10, ⟨"water"⟩⟩, ⟨16, ⟨"land"⟩⟩, ⟨15, ⟨"boundary"⟩⟩, ⟨50, ⟨"city"⟩⟩, ⟨20, ⟨"forest"⟩⟩,
   ⟨99, ⟨"ship"⟩⟩, ⟨30, ⟨"road"⟩⟩, ⟨40, ⟨"field"⟩⟩]

/-! Helper lemmas about the stable descending sort and the first-maximum selector. -/

theorem head?_insertDesc (x : Feature) (s : List Feature) :
    (insertDesc x s).head? =
      some (match s.head? with
        | none => x
        | some y => if startTimeOf x < startTimeOf y then y else x) := by
  cases s with
  | nil => rfl
  | cons y ys =>
    simp only [insertDesc, List.head?_cons]
    by_cases h : startTimeOf y ≤ startTimeOf x
    · rw [if_pos h]
      simp [not_lt.mpr h]
    · rw [if_neg h]
      simp [lt_of_not_le h]

theorem head?_sortDesc (l : List Feature) : (sortDesc l).head? = firstMaxBy l := by
  induction l with
  | nil => rfl
  | cons x xs ih =>
    show (insertDesc x (sortDesc xs)).head? = firstMaxBy (x :: xs)
    rw [head?_insertDesc, ih]
    cases h : firstMaxBy xs with
    | none => simp [firstMaxBy, h]
    | some y => simp [firstMaxBy, h, apply_ite some]

theorem firstMaxBy_eq_none {l : List Feature} : firstMaxBy l = none ↔ l = [] := by
  cases l with
  | nil => simp [firstMaxBy]
  | cons x xs =>
    simp only [firstMaxBy]
    cases h : firstMaxBy xs with
    | none => simp
    | some y =>
      simp only []
      split <;> simp

theorem firstMaxBy_mem {l : List Feature} {f : Feature} (h : firstMaxBy l = some f) :
    f ∈ l := by
  induction l with
  | nil => simp [firstMaxBy] at h
  | cons x xs ih =>
    simp only [firstMaxBy] at h
    cases hx : firstMaxBy xs with
    | none =>
      rw [hx] at h
      simp only [] at h
      injection h with h
      subst h
      exact List.mem_cons_self _ _
    | some y =>
      rw [hx] at h
      simp only [] at h
      by_cases hc : startTimeOf x < startTimeOf y
      · rw [if_pos hc] at h
        injection h with h
        subst h
        exact List.mem_cons_of_mem _ (ih hx)
      · rw [if_neg hc] at h
        injection h with h
        subst h
        exact List.mem_cons_self _ _

theorem firstMaxBy_isMax {l : List Feature} :
    ∀ {f : Feature}, firstMaxBy l = some f → ∀ g ∈ l, startTimeOf g ≤ startTimeOf f := by
  induction l with
  | nil => intro f h; simp [firstMaxBy] at h
  | cons x xs ih =>
    intro f h
    simp only [firstMaxBy] at h
    cases hx : firstMaxBy xs with
    | none =>
      rw [hx] at h
      simp only [] at h
      injection h with h
      subst h
      intro g hg
      rcases List.mem_cons.mp hg with rfl | hg'
      · exact le_refl _
      · rw [firstMaxBy_eq_none] at hx
        subst hx
        simp at hg'
    | some y =>
      rw [hx] at h
      simp only [] at h
      intro g hg
      by_cases hc : startTimeOf x < startTimeOf y
      · rw [if_pos hc] at h
        injection h with h
        subst h
        rcases List.mem_cons.mp hg with rfl | hg'
        · exact le_of_lt hc
        · exact ih hx g hg'
      · rw [if_neg hc] at h
        injection h with h
        subst h
        rcases List.mem_cons.mp hg with rfl | hg'
        · exact le_refl _
        · exact le_trans (ih hx g hg') (le_of_not_lt hc)

theorem firstMaxBy_first {l : List Feature} {f : Feature} (h : firstMaxBy l = some f) :
    (l.filter (fun g => decide (startTimeOf f ≤ startTimeOf g))).head? = some f := by
  induction l with
  | nil => simp [firstMaxBy] at h
  | cons x xs ih =>
    simp only [firstMaxBy] at h
    cases hx : firstMaxBy xs with
    | none =>
      rw [hx] at h
      simp only [] at h
      injection h with h
      subst h
      rw [firstMaxBy_eq_none] at hx
      subst hx
      simp
    | some y =>
      rw [hx] at h
      simp only [] at h
      by_cases hc : startTimeOf x < startTimeOf y
      · rw [if_pos hc] at h
        injection h with h
        subst h
        rw [List.filter_cons, if_neg (by simp [not_le.mpr hc])]
        exact ih hx
      · rw [if_neg hc] at h
        injection h with h
        subst h
        rw [List.filter_cons, if_pos (by simp)]
        rfl

theorem mem_insertDesc {a x : Feature} {l : List Feature} :
    a ∈ insertDesc x l ↔ a = x ∨ a ∈ l := by
  induction l with
  | nil => simp [insertDesc]
  | cons y ys ih =>
    simp only [insertDesc]
    split
    · simp [List.mem_cons]
    · simp only [List.mem_cons, ih]
      tauto

theorem mem_sortDesc {a : Feature} {l : List Feature} : a ∈ sortDesc l ↔ a ∈ l := by
  induction l with
  | nil => exact Iff.rfl
  | cons x xs ih =>
    show a ∈ insertDesc x (sortDesc xs) ↔ _
    rw [mem_insertDesc, ih]
    simp [List.mem_cons]

theorem sortDesc_eq_nil {l : List Feature} : sortDesc l = [] ↔ l = [] := by
  rw [← List.head?_eq_none_iff, head?_sortDesc, firstMaxBy_eq_none]

/-! Helper lemmas about whitespace trimming and the shape of the prompt. -/

theorem ltrim_head {l : List Char} {c : Char} (h : (ltrimChars l).head? = some c) :
    wsC c = false := by
  induction l with
  | nil => simp [ltrimChars] at h
  | cons a t ih =>
    by_cases ha : wsC a
    · rw [ltrimChars, List.dropWhile_cons_of_pos ha] at h
      exact ih h
    · rw [ltrimChars, List.dropWhile_cons_of_neg ha] at h
      injection h with h
      subst h
      simpa using ha

theorem ltrim_of_head {l : List Char} {c : Char} (hc : l.head? = some c)
    (h : wsC c = false) : ltrimChars l = l := by
  cases l with
  | nil => simp at hc
  | cons a t =>
    injection hc with hc
    subst hc
    exact List.dropWhile_cons_of_neg (by simp [h])

theorem ltrim_idem (l : List Char) : ltrimChars (ltrimChars l) = ltrimChars l := by
  cases h : (ltrimChars l).head? with
  | none =>
    rw [List.head?_eq_none_iff] at h
    rw [h]
    rfl
  | some c => exact ltrim_of_head h (ltrim_head h)

theorem rtrim_decomp (l : List Char) :
    rtrimChars l ++ (l.reverse.takeWhile wsC).reverse = l := by
  show (l.reverse.dropWhile wsC).reverse ++ (l.reverse.takeWhile wsC).reverse = l
  rw [← List.reverse_append, List.takeWhile_append_dropWhile, List.reverse_reverse]

theorem head?_rtrim (l : List Char) :
    rtrimChars l = [] ∨ (rtrimChars l).head? = l.head? := by
  cases hr : rtrimChars l with
  | nil => exact Or.inl rfl
  | cons c t =>
    right
    conv_rhs => rw [← rtrim_decomp l]
    rw [hr]
    simp

theorem rtrim_rtrim (l : List Char) : rtrimChars (rtrimChars l) = rtrimChars l := by
  show ((rtrimChars l).reverse.dropWhile wsC).reverse = rtrimChars l
  rw [show (rtrimChars l).reverse = l.reverse.dropWhile wsC from List.reverse_reverse _]
  exact congrArg List.reverse (ltrim_idem l.reverse)

theorem trim_idem (l : List Char) : trimChars (trimChars l) = trimChars l := by
  show rtrimChars (ltrimChars (rtrimChars (ltrimChars l))) = rtrimChars (ltrimChars l)
  have h1 : ltrimChars (rtrimChars (ltrimChars l)) = rtrimChars (ltrimChars l) := by
    rcases head?_rtrim (ltrimChars l) with h | h
    · rw [h]
      rfl
    · cases hm : (ltrimChars l).head? with
      | none =>
        rw [List.head?_eq_none_iff] at hm
        rw [hm]
        rfl
      | some c => exact ltrim_of_head (h.trans hm) (ltrim_head hm)
  rw [h1, rtrim_rtrim]

theorem jsTrim_jsTrim (s : String) : jsTrim (jsTrim s) = jsTrim s := by
  obtain ⟨d⟩ := s
  show String.mk (trimChars (String.mk (trimChars d)).data) = String.mk (trimChars d)
  rw [show (String.mk (trimChars d)).data = trimChars d from rfl, trim_idem]

theorem jsTrim_buildPrompt (c : List ColorSample) (t : List String) (m : Metadata) :
    jsTrim (buildPrompt c t m) = buildPrompt c t m :=
  jsTrim_jsTrim (rawPrompt c t m)

theorem dropWhile_append_stop {l r : List Char} {c : Char} (hc : l.head? = some c)
    (h : wsC c = false) : (l ++ r).dropWhile wsC = l ++ r := by
  cases l with
  | nil => simp at hc
  | cons a tl =>
    injection hc with hc
    subst hc
    simp only [List.cons_append]
    exact List.dropWhile_cons_of_neg (by simp [h])

theorem rtrim_append_newline (l : List Char) :
    rtrimChars (l ++ ['\n']) = rtrimChars l := by
  show ((l ++ ['\n']).reverse.dropWhile wsC).reverse = rtrimChars l
  rw [List.reverse_append]
  rw [show (['\n'] : List Char).reverse ++ l.reverse = '\n' :: l.reverse from rfl]
  rw [List.dropWhile_cons_of_pos (by decide)]
  rfl

theorem rtrim_append_keep {l r : List Char} {c : Char} (hc : r.getLast? = some c)
    (h : wsC c = false) : rtrimChars (l ++ r) = l ++ r := by
  show ((l ++ r).reverse.dropWhile wsC).reverse = l ++ r
  rw [List.reverse_append]
  rw [dropWhile_append_stop (by rw [List.head?_reverse]; exact hc) h]
  rw [← List.reverse_append, List.reverse_reverse]

theorem getLast?_renderMetadata (m : Metadata) :
    (renderMetadata m).data.getLast? = some '\x7d' := by
  unfold renderMetadata
  simp only [String.data_append]
  rw [List.getLast?_append]
  rw [show ("\n  \x7d\n\x7d" : String).data.getLast? = some '\x7d' from rfl]
  rfl

theorem data_buildPrompt (c : List ColorSample) (t : List String) (m : Metadata) :
    (buildPrompt c t m).data =
      promptIntro.data ++ (colorTextOf c).data ++ promptMid.data ++ (tagTextOf t).data
        ++ promptChart.data ++ (renderMetadata m).data := by
  rw [show buildPrompt c t m = jsTrim (rawPrompt c t m) from rfl]
  rw [show (jsTrim (rawPrompt c t m)).data = trimChars (rawPrompt c t m).data from rfl]
  unfold rawPrompt trimChars ltrimChars
  simp only [String.data_append]
  simp only [List.append_assoc, List.singleton_append]
  rw [List.cons_append]
  rw [List.dropWhile_cons_of_pos (by decide)]
  rw [dropWhile_append_stop (show promptIntro.data.head? = some 'Y' from rfl) (by decide)]
  simp only [← List.append_assoc]
  rw [rtrim_append_newline]
  rw [rtrim_append_keep (getLast?_renderMetadata m) (by decide)]

theorem noColor_infix (t : List String) (m : Metadata) :
    ("No color data available" : String).data <:+: (buildPrompt [] t m).data := by
  rw [data_buildPrompt]
  refine ⟨promptIntro.data,
    promptMid.data ++ (tagTextOf t).data ++ promptChart.data ++ (renderMetadata m).data, ?_⟩
  rw [show colorTextOf ([] : List ColorSample) = "No color data available" from rfl]
  simp [List.append_assoc]

theorem noneTag_infix (c : List ColorSample) (m : Metadata) :
    ("None" : String).data <:+: (buildPrompt c [] m).data := by
  rw [data_buildPrompt]
  refine ⟨promptIntro.data ++ (colorTextOf c).data ++ promptMid.data,
    promptChart.data ++ (renderMetadata m).data, ?_⟩
  rw [show tagTextOf ([] : List String) = "None" from rfl]
  simp [List.append_assoc]

/-! Reduction of the handler on the success path. -/

theorem handler_success {cfg : Config} {req : RequestBody} {latitude longitude : JSValue}
    {fs : List Feature} {f : Feature} {rest : List Feature}
    (colorsR : Except Unit (Option (List ColorSample)))
    (tagsR : Except Unit (Option (List ImaggaTag)))
    (aiR : Except Unit (Option AIData))
    (hlat : req.latitude = some latitude) (hlon : req.longitude = some longitude)
    (hkey : jsTruthyStr cfg.imaggaKey = true) (hsec : jsTruthyStr cfg.imaggaSecret = true)
    (hsort : sortedFeatures fs = f :: rest) :
    handler cfg req (Except.ok ⟨some fs⟩) colorsR tagsR aiR =
      successResult latitude longitude f colorsR tagsR aiR := by
  have hne : fs ≠ [] := by
    intro h
    subst h
    simp [sortedFeatures, sortDesc] at hsort
  have hlen : ¬ (fs.length = 0) := by
    simpa [List.length_eq_zero] using hne
  unfold handler
  rw [hlat, hlon]
  simp only []
  rw [if_neg (by simp [hkey, hsec])]
  rw [if_neg hlen, hsort]

/-! Claim theorems. -/

/-- C9, counterexample: the claim asserts strictly increasing timestamps for
successive `/health` calls, but the handler returns exactly the clock reading
`Date.now()` produces, so two calls observing the same millisecond (clock
trace `[5, 5]`) return equal timestamps — not strictly increasing. -/
theorem c9_counterexample :
    ¬ List.Chain' (· < ·) ((healthRun [5, 5]).map (fun r => r.2.timestamp)) := by
  rw [show (healthRun [5, 5]).map (fun r => r.2.timestamp) = [5, 5] from rfl]
  intro h
  exact absurd (List.chain'_cons.mp h).1 (lt_irrefl 5)

/-- C9, amended: every `/health` call returns status 200 with body
`{status := "ok", timestamp := t}` where `t` is the clock reading at the
call; the timestamp sequence equals the clock-reading sequence, so it is
strictly increasing whenever the clock readings are (but only then). -/
theorem c9_health_amended (clock : List Nat) :
    (∀ r ∈ healthRun clock, r.1 = 200 ∧ r.2.status = "ok") ∧
    (healthRun clock).map (fun r => r.2.timestamp) = clock ∧
    (List.Chain' (· < ·) clock →
      List.Chain' (· < ·) ((healthRun clock).map (fun r => r.2.timestamp))) := by
  have hmap : (healthRun clock).map (fun r => r.2.timestamp) = clock := by
    have hcomp : ((fun (r : Nat × HealthBody) => r.2.timestamp) ∘ healthHandler) = id := by
      funext t
      rfl
    simp [healthRun, List.map_map, hcomp]
  refine ⟨?_, hmap, ?_⟩
  · intro r hr
    simp only [healthRun, List.mem_map] at hr
    obtain ⟨t, _, rfl⟩ := hr
    exact ⟨rfl, rfl⟩
  · intro h
    rw [hmap]
    exact h

/-- C9, witness for the amended theorem at the concrete clock trace
`[3, 7, 20]`. -/
theorem c9_health_amended_witness :
    (∀ r ∈ healthRun [3, 7, 20], r.1 = 200 ∧ r.2.status = "ok") ∧
    (healthRun [3, 7, 20]).map (fun r => r.2.timestamp) = [3, 7, 20] ∧
    (List.Chain' (· < ·) [3, 7, 20] →
      List.Chain' (· < ·) ((healthRun [3, 7, 20]).map (fun r => r.2.timestamp))) :=
  c9_health_amended [3, 7, 20]

/-- Equivalence of the boolean eligibility filter of line 51 with its
field-level reading. -/
theorem eligibleB_iff {g : Feature} :
    eligibleB g = true ↔
      ∃ p b, g.properties = some p ∧ p.browse = some b ∧ 0 < b.length := by
  obtain ⟨props⟩ := g
  cases props with
  | none => simp [eligibleB]
  | some p =>
    cases hb : p.browse with
    | none => simp [eligibleB, hb]
    | some b => simp [eligibleB, hb]

/-- C10: the eligibility filter of line 51 checks `properties` and `browse`
before reading `browse.length`, so a feature survives into `sortedFeatures`
exactly when it occurs in the catalog list with a present `properties`
object carrying a present, non-empty `browse` list — and the selected head
feature therefore always has one, its image URL being the head of that
actual list. -/
theorem c10_eligibility_safety (fs : List Feature) :
    (∀ g, g ∈ sortedFeatures fs ↔
      (g ∈ fs ∧ ∃ p b, g.properties = some p ∧ p.browse = some b ∧ 0 < b.length)) ∧
    (∀ f rest, sortedFeatures fs = f :: rest →
      ∃ p b, f.properties = some p ∧ p.browse = some b ∧ 0 < b.length ∧
        imageUrlOf f = b.headD "") := by
  constructor
  · intro g
    rw [sortedFeatures, mem_sortDesc, List.mem_filter, eligibleB_iff]
  · intro f rest h
    have hf : f ∈ sortedFeatures fs := by
      rw [h]
      exact List.mem_cons_self _ _
    rw [sortedFeatures, mem_sortDesc, List.mem_filter, eligibleB_iff] at hf
    obtain ⟨-, p, b, hp, hb, hlen⟩ := hf
    refine ⟨p, b, hp, hb, hlen, ?_⟩
    simp [imageUrlOf, propsOf, hp, hb]

/-- C10, witness at the concrete catalog list `exFs`: its features lacking
`properties` or `browse` are excluded and the selected head is eligible. -/
theorem c10_eligibility_safety_witness :
    (exFeatNoProps ∈ exFs ∧ exFeatNoBrowse ∈ exFs ∧ exFeatEmptyBrowse ∈ exFs) ∧
    (exFeatNoProps ∉ sortedFeatures exFs ∧ exFeatNoBrowse ∉ sortedFeatures exFs ∧
      exFeatEmptyBrowse ∉ sortedFeatures exFs) ∧
    (∃ p b, exFeat2.properties = some p ∧ p.browse = some b ∧ 0 < b.length ∧
      imageUrlOf exFeat2 = b.headD "") := by
  exact ⟨by decide, by decide,
    (c10_eligibility_safety exFs).2 exFeat2 [exFeat3, exFeat1] (by decide)⟩

/-- C7: the prompt builder is a pure function of (colors, tags, metadata) —
equal inputs give byte-identical output — its output is already trimmed of
leading and trailing whitespace (`jsTrim` is the identity on it), an empty
color list puts the literal placeholder `"No color data available"` into the
prompt, and an empty tag list puts the literal `"None"` into it. -/
theorem c7_prompt_pure (c1 c2 : List ColorSample) (t1 t2 : List String) (m1 m2 : Metadata) :
    (c1 = c2 → t1 = t2 → m1 = m2 → buildPrompt c1 t1 m1 = buildPrompt c2 t2 m2) ∧
    jsTrim (buildPrompt c1 t1 m1) = buildPrompt c1 t1 m1 ∧
    (c1 = [] → ("No color data available" : String).data <:+: (buildPrompt c1 t1 m1).data) ∧
    (t1 = [] → ("None" : String).data <:+: (buildPrompt c1 t1 m1).data) := by
  refine ⟨?_, jsTrim_buildPrompt c1 t1 m1, ?_, ?_⟩
  · intro h1 h2 h3
    rw [h1, h2, h3]
  · intro h
    subst h
    exact noColor_infix t1 m1
  · intro h
    subst h
    exact noneTag_infix c1 m1

/-- C7, witness at empty colors, empty tags and the concrete metadata
`exMeta`. -/
theorem c7_prompt_pure_witness :
    (([] : List ColorSample) = [] → ([] : List String) = [] → exMeta = exMeta →
      buildPrompt [] [] exMeta = buildPrompt [] [] exMeta) ∧
    jsTrim (buildPrompt [] [] exMeta) = buildPrompt [] [] exMeta ∧
    (([] : List ColorSample) = [] →
      ("No color data available" : String).data <:+: (buildPrompt [] [] exMeta).data) ∧
    (([] : List String) = [] →
      ("None" : String).data <:+: (buildPrompt [] [] exMeta).data) :=
  c7_prompt_pure [] [] [] [] exMeta exMeta

/-- Helper for C5: once both coordinates are defined, no run of the handler
produces status 400. -/
theorem handler_status_ne_400 (cfg : Config) (req : RequestBody) (asfR : Except Unit AsfData)
    (colorsR : Except Unit (Option (List ColorSample)))
    (tagsR : Except Unit (Option (List ImaggaTag)))
    (aiR : Except Unit (Option AIData))
    (v w : JSValue) (hv : req.latitude = some v) (hw : req.longitude = some w) :
    (handler cfg req asfR colorsR tagsR aiR).1.status ≠ 400 := by
  unfold handler
  rw [hv, hw]
  simp only []
  split
  · simp
  · split
    · simp
    · split
      · simp
      · split
        · simp
        · split
          · simp
          · simp [successResult]

/-- C5: the handler answers 400 with exactly
`{error := "Latitude and Longitude are required."}` and makes no outbound
call if and only if the request body's latitude or longitude is undefined;
any defined value of any shape passes the validation (no run with both
coordinates defined has status 400). -/
theorem c5_validation (cfg : Config) (req : RequestBody) (asfR : Except Unit AsfData)
    (colorsR : Except Unit (Option (List ColorSample)))
    (tagsR : Except Unit (Option (List ImaggaTag)))
    (aiR : Except Unit (Option AIData)) :
    (handler cfg req asfR colorsR tagsR aiR =
        ({ status := 400, body := RespBody.err "Latitude and Longitude are required." }, []) ↔
      (req.latitude = none ∨ req.longitude = none)) ∧
    (∀ v w : JSValue, req.latitude = some v → req.longitude = some w →
      (handler cfg req asfR colorsR tagsR aiR).1.status ≠ 400) := by
  constructor
  · constructor
    · intro h
      by_contra hc
      push_neg at hc
      obtain ⟨hlat, hlon⟩ := hc
      obtain ⟨v, hv⟩ := Option.ne_none_iff_exists'.mp hlat
      obtain ⟨w, hw⟩ := Option.ne_none_iff_exists'.mp hlon
      have hne := handler_status_ne_400 cfg req asfR colorsR tagsR aiR v w hv hw
      rw [h] at hne
      simp at hne
    · intro h
      rcases h with h | h
      · unfold handler
        rw [h]
      · unfold handler
        rw [h]
        rcases hl : req.latitude with _ | v <;> rfl
  · exact handler_status_ne_400 cfg req asfR colorsR tagsR aiR

/-- C5, witness: a request missing its latitude is rejected with the exact
400 body and no calls, and a request with both coordinates present (of any
shape, here a string and a null) is not rejected with 400. -/
theorem c5_validation_witness :
    (handler exCfg ⟨none, some (JSValue.num 2)⟩ (Except.error ()) (Except.error ())
        (Except.error ()) (Except.error ()) =
      ({ status := 400, body := RespBody.err "Latitude and Longitude are required." }, [])) ∧
    (handler exCfg ⟨some (JSValue.str "x"), some JSValue.null⟩ (Except.error ()) (Except.error ())
        (Except.error ()) (Except.error ())).1.status ≠ 400 :=
  ⟨(c5_validation exCfg ⟨none, some (JSValue.num 2)⟩ (Except.error ()) (Except.error ())
      (Except.error ()) (Except.error ())).1.mpr (Or.inl rfl),
   (c5_validation exCfg ⟨some (JSValue.str "x"), some JSValue.null⟩ (Except.error ())
      (Except.error ()) (Except.error ()) (Except.error ())).2
      (JSValue.str "x") JSValue.null rfl rfl⟩

/-- C6: with validation and configuration passed, an absent or empty catalog
feature set yields 404 `"No SAR data found for this location."` with only
the catalog call made, and a non-empty feature set in which no feature
carries a non-empty browse list yields the distinct 404
`"SAR data found, but no preview images are available."`, again with only
the catalog call made. -/
theorem c6_not_found (cfg : Config) (req : RequestBody) (latitude longitude : JSValue)
    (colorsR : Except Unit (Option (List ColorSample)))
    (tagsR : Except Unit (Option (List ImaggaTag)))
    (aiR : Except Unit (Option AIData))
    (hlat : req.latitude = some latitude) (hlon : req.longitude = some longitude)
    (hkey : jsTruthyStr cfg.imaggaKey = true) (hsec : jsTruthyStr cfg.imaggaSecret = true) :
    (∀ asfD : AsfData, asfD.features = none →
      handler cfg req (Except.ok asfD) colorsR tagsR aiR =
        ({ status := 404, body := RespBody.err "No SAR data found for this location." },
         [Call.asf latitude longitude])) ∧
    (handler cfg req (Except.ok ⟨some []⟩) colorsR tagsR aiR =
      ({ status := 404, body := RespBody.err "No SAR data found for this location." },
       [Call.asf latitude longitude])) ∧
    (∀ fs : List Feature, fs ≠ [] → (∀ g ∈ fs, eligibleB g = false) →
      handler cfg req (Except.ok ⟨some fs⟩) colorsR tagsR aiR =
        ({ status := 404, body := RespBody.err "SAR data found, but no preview images are available." },
         [Call.asf latitude longitude])) := by
  refine ⟨?_, ?_, ?_⟩
  · intro asfD hfeat
    unfold handler
    rw [hlat, hlon]
    simp only []
    rw [if_neg (by simp [hkey, hsec])]
    rw [hfeat]
  · unfold handler
    rw [hlat, hlon]
    simp only []
    rw [if_neg (by simp [hkey, hsec])]
    rfl
  · intro fs hne hall
    have hfil : fs.filter eligibleB = [] := by
      rw [List.filter_eq_nil_iff]
      intro a ha
      simp [hall a ha]
    have hsort : sortedFeatures fs = [] := by
      rw [sortedFeatures, hfil]
      rfl
    have hlen : ¬ (fs.length = 0) := by
      simpa [List.length_eq_zero] using hne
    unfold handler
    rw [hlat, hlon]
    simp only []
    rw [if_neg (by simp [hkey, hsec])]
    rw [if_neg hlen, hsort]

/-- C6, witness: an absent feature set, an empty feature set, and a
feature set whose features all lack previews, each at concrete inputs. -/
theorem c6_not_found_witness :
    (handler exCfg exReq (Except.ok ⟨none⟩) (Except.error ()) (Except.error ()) (Except.error ()) =
      ({ status := 404, body := RespBody.err "No SAR data found for this location." },
       [Call.asf (JSValue.num 1) (JSValue.num 2)])) ∧
    (handler exCfg exReq (Except.ok ⟨some []⟩) (Except.error ()) (Except.error ()) (Except.error ()) =
      ({ status := 404, body := RespBody.err "No SAR data found for this location." },
       [Call.asf (JSValue.num 1) (JSValue.num 2)])) ∧
    (handler exCfg exReq (Except.ok ⟨some [exFeatNoProps, exFeatNoBrowse, exFeatEmptyBrowse]⟩)
        (Except.error ()) (Except.error ()) (Except.error ()) =
      ({ status := 404, body := RespBody.err "SAR data found, but no preview images are available." },
       [Call.asf (JSValue.num 1) (JSValue.num 2)])) :=
  ⟨(c6_not_found exCfg exReq (JSValue.num 1) (JSValue.num 2) (Except.error ()) (Except.error ())
      (Except.error ()) rfl rfl rfl rfl).1 ⟨none⟩ rfl,
   (c6_not_found exCfg exReq (JSValue.num 1) (JSValue.num 2) (Except.error ()) (Except.error ())
      (Except.error ()) rfl rfl rfl rfl).2.1,
   (c6_not_found exCfg exReq (JSValue.num 1) (JSValue.num 2) (Except.error ()) (Except.error ())
      (Except.error ()) rfl rfl rfl rfl).2.2 [exFeatNoProps, exFeatNoBrowse, exFeatEmptyBrowse]
      (by decide) (by decide)⟩

/-- C8, counterexample: the claim says a request fails with status 500
whenever the Imagga key is unset, but a request that is also missing its
latitude is rejected with 400 — the coordinate validation runs first, so the
claim as stated (over all requests) is false. -/
theorem c8_counterexample :
    (handler ⟨none, some "secret", some "router"⟩ ⟨none, some (JSValue.num 2)⟩
        (Except.error ()) (Except.error ()) (Except.error ()) (Except.error ())).1.status = 400 ∧
    ¬ (handler ⟨none, some "secret", some "router"⟩ ⟨none, some (JSValue.num 2)⟩
        (Except.error ()) (Except.error ()) (Except.error ()) (Except.error ())).1.status = 500 := by
  exact ⟨rfl, by decide⟩

/-- C8, amended: for a request that passes coordinate validation, an unset
vision-API key or secret makes the handler answer 500 with exactly
`{error := "Server configuration error: Imagga credentials missing."}`
before any outbound call; and — for every credential state, missing or
present — the handler's outcome does not depend on the LLM-provider key at
all, so a missing LLM key never blocks a request. -/
theorem c8_config_error_amended (cfg : Config) (req : RequestBody)
    (latitude longitude : JSValue) (asfR : Except Unit AsfData)
    (colorsR : Except Unit (Option (List ColorSample)))
    (tagsR : Except Unit (Option (List ImaggaTag)))
    (aiR : Except Unit (Option AIData))
    (hlat : req.latitude = some latitude) (hlon : req.longitude = some longitude) :
    (cfg.imaggaKey = none ∨ cfg.imaggaSecret = none →
      handler cfg req asfR colorsR tagsR aiR =
        ({ status := 500,
           body := RespBody.err "Server configuration error: Imagga credentials missing." }, [])) ∧
    (∀ k k' : Option String,
      handler ⟨cfg.imaggaKey, cfg.imaggaSecret, k⟩ req asfR colorsR tagsR aiR =
        handler ⟨cfg.imaggaKey, cfg.imaggaSecret, k'⟩ req asfR colorsR tagsR aiR) := by
  constructor
  · intro hmiss
    unfold handler
    rw [hlat, hlon]
    simp only []
    rw [if_pos (by rcases hmiss with h | h <;> simp [h, jsTruthyStr])]
  · intro k k'
    rfl

/-- C8, witness for the amended theorem: an unset Imagga key with valid
coordinates gives the exact 500 configuration error with an empty call
list; with the Imagga credentials present, the handler's result is the same
with the LLM key absent as with it set — and that run with the missing LLM
key is not blocked: it completes with status 200. -/
theorem c8_config_error_amended_witness :
    (handler ⟨none, some "secret", some "router"⟩ exReq (Except.error ()) (Except.error ())
        (Except.error ()) (Except.error ()) =
      ({ status := 500,
         body := RespBody.err "Server configuration error: Imagga credentials missing." }, [])) ∧
    (handler ⟨some "key", some "secret", none⟩ exReq (Except.ok ⟨some exFs⟩) (Except.error ())
        (Except.error ()) (Except.error ()) =
      handler ⟨some "key", some "secret", some "router"⟩ exReq (Except.ok ⟨some exFs⟩)
        (Except.error ()) (Except.error ()) (Except.error ())) ∧
    (handler ⟨some "key", some "secret", none⟩ exReq (Except.ok ⟨some exFs⟩) (Except.error ())
        (Except.error ()) (Except.error ())).1.status = 200 :=
  ⟨(c8_config_error_amended ⟨none, some "secret", some "router"⟩ exReq (JSValue.num 1)
      (JSValue.num 2) (Except.error ()) (Except.error ()) (Except.error ()) (Except.error ())
      rfl rfl).1 (Or.inl rfl),
   (c8_config_error_amended ⟨some "key", some "secret", some "router"⟩ exReq (JSValue.num 1)
      (JSValue.num 2) (Except.ok ⟨some exFs⟩) (Except.error ()) (Except.error ())
      (Except.error ()) rfl rfl).2 none (some "router"),
   by decide⟩

/-- C1: whenever the catalog response contains at least one feature with a
non-empty browse list, the handler selects the eligible feature with the
latest `startTime` — first in original catalog order among equals, so the
selection depends on the input order only through that tie-break — agrees
with the spec-side selector `selectLatest_spec`, and uses that feature's
first browse URL as the `imageUrl` of the 200 response and of both
enrichment calls. -/
theorem c1_latest_feature_selected (cfg : Config) (req : RequestBody)
    (latitude longitude : JSValue) (fs : List Feature)
    (colorsR : Except Unit (Option (List ColorSample)))
    (tagsR : Except Unit (Option (List ImaggaTag)))
    (aiR : Except Unit (Option AIData))
    (hlat : req.latitude = some latitude) (hlon : req.longitude = some longitude)
    (hkey : jsTruthyStr cfg.imaggaKey = true) (hsec : jsTruthyStr cfg.imaggaSecret = true)
    (hex : ∃ g ∈ fs, eligibleB g = true) :
    ∃ f sb calls,
      selectLatest_spec fs = some f ∧
      f ∈ fs ∧ eligibleB f = true ∧
      (∀ g ∈ fs, eligibleB g = true → startTimeOf g ≤ startTimeOf f) ∧
      (fs.filter (fun g => eligibleB g && decide (startTimeOf f ≤ startTimeOf g))).head? = some f ∧
      handler cfg req (Except.ok ⟨some fs⟩) colorsR tagsR aiR =
        ({ status := 200, body := RespBody.ok sb }, calls) ∧
      sb.imageUrl = imageUrlOf f ∧
      Call.colors (imageUrlOf f) ∈ calls ∧
      Call.tags (imageUrlOf f) ∈ calls := by
  obtain ⟨g, hgmem, hgel⟩ := hex
  have hgl : g ∈ fs.filter eligibleB := List.mem_filter.mpr ⟨hgmem, hgel⟩
  have hflne : fs.filter eligibleB ≠ [] := by
    intro h
    rw [h] at hgl
    simp at hgl
  obtain ⟨f, hf⟩ : ∃ f, firstMaxBy (fs.filter eligibleB) = some f := by
    cases hc : firstMaxBy (fs.filter eligibleB) with
    | none => exact absurd (firstMaxBy_eq_none.mp hc) hflne
    | some f => exact ⟨f, rfl⟩
  have hmemf := firstMaxBy_mem hf
  have hsorthead : (sortedFeatures fs).head? = some f := by
    rw [sortedFeatures, head?_sortDesc]
    exact hf
  obtain ⟨rest, hsort⟩ := List.head?_eq_some_iff.mp hsorthead
  have hrun := handler_success colorsR tagsR aiR hlat hlon hkey hsec hsort
  refine ⟨f, successBody latitude longitude f colorsR tagsR aiR,
    successCalls latitude longitude f colorsR tagsR, hf,
    (List.mem_filter.mp hmemf).1, (List.mem_filter.mp hmemf).2, ?_, ?_, ?_, rfl, ?_, ?_⟩
  · intro g' hg' hel'
    exact firstMaxBy_isMax hf g' (List.mem_filter.mpr ⟨hg', hel'⟩)
  · have hfirst := firstMaxBy_first hf
    rw [List.filter_filter] at hfirst
    have hcong :
        fs.filter (fun a => decide (startTimeOf f ≤ startTimeOf a) && eligibleB a) =
          fs.filter (fun g => eligibleB g && decide (startTimeOf f ≤ startTimeOf g)) :=
      List.filter_congr (fun a _ => Bool.and_comm _ _)
    rw [hcong] at hfirst
    exact hfirst
  · rw [hrun]
    rfl
  · simp [successCalls]
  · simp [successCalls]

/-- C1, witness at the concrete catalog list `exFs`, whose latest eligible
feature (`exFeat2`, start time 300) is neither first nor last. -/
theorem c1_latest_feature_selected_witness :
    ∃ f sb calls,
      selectLatest_spec exFs = some f ∧
      f ∈ exFs ∧ eligibleB f = true ∧
      (∀ g ∈ exFs, eligibleB g = true → startTimeOf g ≤ startTimeOf f) ∧
      (exFs.filter (fun g => eligibleB g && decide (startTimeOf f ≤ startTimeOf g))).head? = some f ∧
      handler exCfg exReq (Except.ok ⟨some exFs⟩) (Except.error ()) (Except.error ())
          (Except.error ()) =
        ({ status := 200, body := RespBody.ok sb }, calls) ∧
      sb.imageUrl = imageUrlOf f ∧
      Call.colors (imageUrlOf f) ∈ calls ∧
      Call.tags (imageUrlOf f) ∈ calls :=
  c1_latest_feature_selected exCfg exReq (JSValue.num 1) (JSValue.num 2) exFs
    (Except.error ()) (Except.error ()) (Except.error ()) rfl rfl rfl rfl (by decide)

/-- C2: when the tags call succeeds with a tag list, the response's
`imageTags` are exactly the tags of confidence strictly greater than 15, in
upstream order (no re-sort), truncated to the first 5 such survivors, each
projected to its English label; a tag of confidence exactly 15 never
survives the filter. -/
theorem c2_tags_filter (cfg : Config) (req : RequestBody)
    (latitude longitude : JSValue) (fs : List Feature) (f : Feature) (rest : List Feature)
    (colorsR : Except Unit (Option (List ColorSample)))
    (aiR : Except Unit (Option AIData)) (ts : List ImaggaTag)
    (hlat : req.latitude = some latitude) (hlon : req.longitude = some longitude)
    (hkey : jsTruthyStr cfg.imaggaKey = true) (hsec : jsTruthyStr cfg.imaggaSecret = true)
    (hsort : sortedFeatures fs = f :: rest) :
    ∃ sb calls,
      handler cfg req (Except.ok ⟨some fs⟩) colorsR (Except.ok (some ts)) aiR =
        ({ status := 200, body := RespBody.ok sb }, calls) ∧
      sb.imageTags =
        ((ts.filter (fun t => decide (t.confidence > 15))).take 5).map (fun t => t.tag.en) ∧
      (∀ t : ImaggaTag, t.confidence = 15 →
        t ∉ ts.filter (fun t => decide (t.confidence > 15))) := by
  refine ⟨successBody latitude longitude f colorsR (Except.ok (some ts)) aiR,
    successCalls latitude longitude f colorsR (Except.ok (some ts)), ?_, rfl, ?_⟩
  · rw [handler_success colorsR (Except.ok (some ts)) aiR hlat hlon hkey hsec hsort]
    rfl
  · intro t h15 hmem
    rw [List.mem_filter] at hmem
    have := of_decide_eq_true hmem.2
    rw [h15] at this
    exact absurd this (lt_irrefl _)

/-- C2, witness at the concrete tag list `exTags` (confidences
`[10, 16, 15, 50, 20, 99, 30, 40]`): the survivors are the six tags above
15 in upstream order, capped to the first five. -/
theorem c2_tags_filter_witness :
    ∃ sb calls,
      handler exCfg exReq (Except.ok ⟨some exFs⟩) (Except.error ()) (Except.ok (some exTags))
          (Except.error ()) =
        ({ status := 200, body := RespBody.ok sb }, calls) ∧
      sb.imageTags =
        ((exTags.filter (fun t => decide (t.confidence > 15))).take 5).map (fun t => t.tag.en) ∧
      (∀ t : ImaggaTag, t.confidence = 15 →
        t ∉ exTags.filter (fun t => decide (t.confidence > 15))) :=
  c2_tags_filter exCfg exReq (JSValue.num 1) (JSValue.num 2) exFs exFeat2 [exFeat3, exFeat1]
    (Except.error ()) (Except.error ()) exTags rfl rfl rfl rfl (by decide)

/-- C3: once a feature has been selected, a failing vision-colors call — or
a successful one whose body lacks the `result.colors.image_colors` nesting —
does not abort the request: the response is still 200, `imageColors`
degrades to `[]`, and every other field is the one computed from the
remaining oracles. -/
theorem c3_colors_degrade (cfg : Config) (req : RequestBody)
    (latitude longitude : JSValue) (fs : List Feature) (f : Feature) (rest : List Feature)
    (colorsR : Except Unit (Option (List ColorSample)))
    (tagsR : Except Unit (Option (List ImaggaTag)))
    (aiR : Except Unit (Option AIData))
    (hlat : req.latitude = some latitude) (hlon : req.longitude = some longitude)
    (hkey : jsTruthyStr cfg.imaggaKey = true) (hsec : jsTruthyStr cfg.imaggaSecret = true)
    (hsort : sortedFeatures fs = f :: rest)
    (hfail : colorsR = Except.error () ∨ colorsR = Except.ok none) :
    ∃ sb calls,
      handler cfg req (Except.ok ⟨some fs⟩) colorsR tagsR aiR =
        ({ status := 200, body := RespBody.ok sb }, calls) ∧
      sb.imageColors = [] ∧
      sb.imageUrl = imageUrlOf f ∧
      sb.explanation = explanationOf aiR ∧
      sb.imageTags = imageTagsOf tagsR ∧
      sb.sceneName = (propsOf f).sceneName ∧
      sb.metadata = metadataOf latitude longitude f := by
  refine ⟨successBody latitude longitude f colorsR tagsR aiR,
    successCalls latitude longitude f colorsR tagsR, ?_, ?_, rfl, rfl, rfl, rfl, rfl⟩
  · rw [handler_success colorsR tagsR aiR hlat hlon hkey hsec hsort]
    rfl
  · rcases hfail with rfl | rfl <;> rfl

/-- C3, witness: a failing colors call and a colors response missing the
nesting, both at the concrete catalog list `exFs`. -/
theorem c3_colors_degrade_witness :
    (∃ sb calls,
      handler exCfg exReq (Except.ok ⟨some exFs⟩) (Except.error ()) (Except.error ())
          (Except.error ()) =
        ({ status := 200, body := RespBody.ok sb }, calls) ∧
      sb.imageColors = [] ∧
      sb.imageUrl = imageUrlOf exFeat2 ∧
      sb.explanation = explanationOf (Except.error ()) ∧
      sb.imageTags = imageTagsOf (Except.error ()) ∧
      sb.sceneName = (propsOf exFeat2).sceneName ∧
      sb.metadata = metadataOf (JSValue.num 1) (JSValue.num 2) exFeat2) ∧
    (∃ sb calls,
      handler exCfg exReq (Except.ok ⟨some exFs⟩) (Except.ok none) (Except.error ())
          (Except.error ()) =
        ({ status := 200, body := RespBody.ok sb }, calls) ∧
      sb.imageColors = [] ∧
      sb.imageUrl = imageUrlOf exFeat2 ∧
      sb.explanation = explanationOf (Except.error ()) ∧
      sb.imageTags = imageTagsOf (Except.error ()) ∧
      sb.sceneName = (propsOf exFeat2).sceneName ∧
      sb.metadata = metadataOf (JSValue.num 1) (JSValue.num 2) exFeat2) :=
  ⟨c3_colors_degrade exCfg exReq (JSValue.num 1) (JSValue.num 2) exFs exFeat2 [exFeat3, exFeat1]
      (Except.error ()) (Except.error ()) (Except.error ()) rfl rfl rfl rfl (by decide)
      (Or.inl rfl),
   c3_colors_degrade exCfg exReq (JSValue.num 1) (JSValue.num 2) exFs exFeat2 [exFeat3, exFeat1]
      (Except.ok none) (Except.error ()) (Except.error ()) rfl rfl rfl rfl (by decide)
      (Or.inr rfl)⟩

/-- C4: once a feature has been selected, a failing LLM call leaves the
response at 200 with every other field computed normally and `explanation`
equal to the exact literal `"AI interpretation unavailable due to service
error."`; a successful LLM call yields the extracted explanation — the
first choice's message content when it is a non-empty string, else the
legacy `text` field when it is a non-empty string, else the empty string. -/
theorem c4_explanation (cfg : Config) (req : RequestBody)
    (latitude longitude : JSValue) (fs : List Feature) (f : Feature) (rest : List Feature)
    (colorsR : Except Unit (Option (List ColorSample)))
    (tagsR : Except Unit (Option (List ImaggaTag)))
    (aiR : Except Unit (Option AIData))
    (hlat : req.latitude = some latitude) (hlon : req.longitude = some longitude)
    (hkey : jsTruthyStr cfg.imaggaKey = true) (hsec : jsTruthyStr cfg.imaggaSecret = true)
    (hsort : sortedFeatures fs = f :: rest) :
    (aiR = Except.error () →
      ∃ sb calls,
        handler cfg req (Except.ok ⟨some fs⟩) colorsR tagsR aiR =
          ({ status := 200, body := RespBody.ok sb }, calls) ∧
        sb.explanation = "AI interpretation unavailable due to service error." ∧
        sb.imageUrl = imageUrlOf f ∧
        sb.imageTags = imageTagsOf tagsR ∧
        sb.imageColors = imageColorsOf colorsR ∧
        sb.sceneName = (propsOf f).sceneName) ∧
    (∀ d : Option AIData, aiR = Except.ok d →
      ∃ sb calls,
        handler cfg req (Except.ok ⟨some fs⟩) colorsR tagsR aiR =
          ({ status := 200, body := RespBody.ok sb }, calls) ∧
        sb.explanation = extractExplanation d) ∧
    (∀ (s : String) (mt : Option String) (cs : List AIChoice), s ≠ "" →
      extractExplanation (some ⟨some (⟨some ⟨some s⟩, mt⟩ :: cs)⟩) = s) ∧
    (∀ (t : String) (cs : List AIChoice), t ≠ "" →
      extractExplanation (some ⟨some (⟨none, some t⟩ :: cs)⟩) = t) ∧
    (∀ cs : List AIChoice, extractExplanation (some ⟨some (⟨none, none⟩ :: cs)⟩) = "") := by
  refine ⟨?_, ?_, ?_, ?_, ?_⟩
  · intro hai
    subst hai
    exact ⟨successBody latitude longitude f colorsR tagsR (Except.error ()),
      successCalls latitude longitude f colorsR tagsR,
      by rw [handler_success colorsR tagsR (Except.error ()) hlat hlon hkey hsec hsort]; rfl,
      rfl, rfl, rfl, rfl, rfl⟩
  · intro d hai
    subst hai
    exact ⟨successBody latitude longitude f colorsR tagsR (Except.ok d),
      successCalls latitude longitude f colorsR tagsR,
      by rw [handler_success colorsR tagsR (Except.ok d) hlat hlon hkey hsec hsort]; rfl,
      rfl⟩
  · intro s mt cs hs
    simp [extractExplanation, jsOr, hs]
  · intro t cs ht
    simp [extractExplanation, jsOr, ht]
  · intro cs
    rfl

/-- C4, witness at the concrete catalog list `exFs` with a failing LLM
call, plus the three extraction shapes at concrete strings. -/
theorem c4_explanation_witness :
    ((Except.error () : Except Unit (Option AIData)) = Except.error () →
      ∃ sb calls,
        handler exCfg exReq (Except.ok ⟨some exFs⟩) (Except.error ()) (Except.error ())
            (Except.error ()) =
          ({ status := 200, body := RespBody.ok sb }, calls) ∧
        sb.explanation = "AI interpretation unavailable due to service error." ∧
        sb.imageUrl = imageUrlOf exFeat2 ∧
        sb.imageTags = imageTagsOf (Except.error ()) ∧
        sb.imageColors = imageColorsOf (Except.error ()) ∧
        sb.sceneName = (propsOf exFeat2).sceneName) ∧
    (∀ d : Option AIData, (Except.error () : Except Unit (Option AIData)) = Except.ok d →
      ∃ sb calls,
        handler exCfg exReq (Except.ok ⟨some exFs⟩) (Except.error ()) (Except.error ())
            (Except.error ()) =
          ({ status := 200, body := RespBody.ok sb }, calls) ∧
        sb.explanation = extractExplanation d) ∧
    (∀ (s : String) (mt : Option String) (cs : List AIChoice), s ≠ "" →
      extractExplanation (some ⟨some (⟨some ⟨some s⟩, mt⟩ :: cs)⟩) = s) ∧
    (∀ (t : String) (cs : List AIChoice), t ≠ "" →
      extractExplanation (some ⟨some (⟨none, some t⟩ :: cs)⟩) = t) ∧
    (∀ cs : List AIChoice, extractExplanation (some ⟨some (⟨none, none⟩ :: cs)⟩) = "") :=
  c4_explanation exCfg exReq (JSValue.num 1) (JSValue.num 2) exFs exFeat2 [exFeat3, exFeat1]
    (Except.error ()) (Except.error ()) (Except.error ()) rfl rfl rfl rfl (by decide)

end SarServer
